import Mathlib

/-!
Verification of `src/Telegram/SourceFiles/ui/boxes/edit_invite_link.cpp`
(the invite-link edit dialog): the limit-ladder synthesis performed by
`regenerate`, the dialog's selection state machine driven by the radio-group
and picker callbacks, and the commit encoding back into `InviteLinkFields`.

The embedding is shallow: the C++ constants and the pure parts of the code
are translated directly into Lean functions; the mutable dialog state
(`State` plus the two `RadiobuttonGroup` values and the secondary-picker
status) becomes an explicit record `UIState` with a `step` function derived
from the callbacks in the source.
-/

namespace EditInviteLink

/-- Constant `kMaxLimit = std::numeric_limits<int>::max()` (line 24). -/
def kMaxLimit : Int := 2147483647

/-- Constant `kHour = 3600` (line 25). -/
def kHour : Int := 3600

/-- Constant `kDay = 86400` (line 26). -/
def kDay : Int := 86400

/-- Constant `kMaxLabelLength = 32` (line 27). -/
def kMaxLabelLength : Nat := 32

/-- The `InviteLinkFields` record exchanged with the caller
(seed input at lines 52-55, output record at lines 330-337). -/
structure InviteLinkFields where
  link : String
  label : String
  expireDate : Int
  usageLimit : Int
  requestApproval : Bool
  isGroup : Bool
deriving Repr, DecidableEq

/-- The insertion scan of `regenerate` (lines 171-190), generic over the
per-dimension comparison `cond`.  For each element `p` of the preset list, in
order: if `p` equals the current value the scan stops without inserting
(`break` at line 173 / 183); if `p` is `kMaxLimit` the element is skipped
(`continue` at line 175 / 185); if `p` is the custom trigger `0` or `cond p`
holds, the current value is inserted immediately before `p` and the scan
stops (lines 176-179 / 186-189); otherwise the scan continues. -/
def ladderInsert (cond : Int → Prop) [DecidablePred cond] (cur : Int) :
    List Int → List Int
  | [] => []
  | p :: rest =>
    if p = cur then p :: rest
    else if p = kMaxLimit then p :: ladderInsert cond cur rest
    else if p = 0 ∨ cond p then cur :: p :: rest
    else p :: ladderInsert cond cur rest

/-- The expiration preset vector `expires` of `regenerate` (line 168):
`kMaxLimit, -kHour, -kDay, -kDay * 7, 0`. -/
def expiresPresets : List Int := [kMaxLimit, -kHour, -kDay, -(kDay * 7), 0]

/-- The usage preset vector `usages` of `regenerate` (line 169):
`kMaxLimit, 1, 10, 100, 0`. -/
def usagesPresets : List Int := [kMaxLimit, 1, 10, 100, 0]

/-- The expiration option list built by `regenerate` (lines 171-180): the
insertion condition for a non-trigger, non-`kMaxLimit` preset `p` is
`now - p >= expireValue` (line 176), where `now` is the unixtime captured
when the box was built (line 91). -/
def regenerateExpires (now cur : Int) : List Int :=
  ladderInsert (fun p => now - p ≥ cur) cur expiresPresets

/-- The usage option list built by `regenerate` (lines 181-190): the
insertion condition for a non-trigger, non-`kMaxLimit` preset `p` is
`p > usageValue` (line 186). -/
def regenerateUsages (cur : Int) : List Int :=
  ladderInsert (fun p => p > cur) cur usagesPresets

/-- The default time seeded into `ChooseDateTimeBox` when the custom
expiration trigger is selected (lines 234-240):
`(expireValue == kMaxLimit) ? (now + kDay) : (expireValue > now)
 ? expireValue : (expireValue < 0) ? (now - expireValue) : (now + kDay)`,
where `now` is a fresh `base::unixtime::now()` (line 233). -/
def expirePickerSeedTime (now expireValue : Int) : Int :=
  if expireValue = kMaxLimit then now + kDay
  else if expireValue > now then expireValue
  else if expireValue < 0 then now - expireValue
  else now + kDay

/-- The initial text seeded into the `NumberInput` of the custom usage
picker (lines 267-269): empty for `kMaxLimit`, otherwise the decimal
rendering of `usageValue`. -/
def usagePickerSeedText (usageValue : Int) : String :=
  if usageValue = kMaxLimit then "" else toString usageValue

/-- The mutable dialog state: the captured `link` and `isGroup` (lines
58-59), the `State` fields `expireValue` / `usageValue` / `requestApproval`
(lines 98-109), the label input's text, the two `RadiobuttonGroup` displayed
values (lines 93, 95), whether each secondary picker box is currently shown,
and a counter of `regenerate()` calls (so resynthesis can be observed). -/
structure UIState where
  link : String
  isGroup : Bool
  expireValue : Int
  usageValue : Int
  requestApproval : Bool
  label : String
  expireGroupValue : Int
  usageGroupValue : Int
  expirePickerOpen : Bool
  usagePickerOpen : Bool
  regenCount : Nat
deriving Repr, DecidableEq

/-- The state right after `EditInviteLinkBox` builds the box from `data`:
`expire = data.expireDate ? data.expireDate : kMaxLimit` and
`usage = data.usageLimit ? data.usageLimit : kMaxLimit` (lines 92, 94) seed
both the stored values and the radio groups; the label field is seeded with
`data.label` (line 305); no picker is open; `regenerate()` has run once
(line 298). -/
def initUI (data : InviteLinkFields) : UIState :=
  { link := data.link
    isGroup := data.isGroup
    expireValue := if data.expireDate = 0 then kMaxLimit else data.expireDate
    usageValue := if data.usageLimit = 0 then kMaxLimit else data.usageLimit
    requestApproval := data.requestApproval
    label := data.label
    expireGroupValue := if data.expireDate = 0 then kMaxLimit else data.expireDate
    usageGroupValue := if data.usageLimit = 0 then kMaxLimit else data.usageLimit
    expirePickerOpen := false
    usagePickerOpen := false
    regenCount := 1 }

/-- Effect of one `regenerate()` call (lines 164-213) on the dialog state:
both radio groups are set back to the stored values (lines 165-166) and the
option widgets are rebuilt; the stored values themselves are untouched. -/
def applyRegenerate (s : UIState) : UIState :=
  { s with
    expireGroupValue := s.expireValue
    usageGroupValue := s.usageValue
    regenCount := s.regenCount + 1 }

/-- The discrete user events the dialog reacts to: choosing a value in one
of the two radio groups (the group's changed callbacks, lines 216-248 and
249-296), the date picker's `done` callback (lines 223-232), dismissing the
date picker, the numeric picker's `save` with the parsed integer of the
input text (lines 280-291, `QString::toInt` yields `0` for unparsable
text), the numeric picker's cancel button (line 294), toggling the
`requestApproval` button (lines 117-118), and editing the label field
(lines 300-311, capped at `kMaxLabelLength`). -/
inductive Event where
  | selectExpire (v : Int)
  | selectUsage (v : Int)
  | expireConfirm (t : Int)
  | expireCancel
  | usageSubmit (v : Int)
  | usageCancel
  | setApproval (b : Bool)
  | setLabel (text : String)
deriving Repr, DecidableEq

/-- One transition of the dialog, translated from the callbacks in the
source:
* `selectExpire v` / `selectUsage v`: the radio group takes the clicked
  value and fires the changed callback; for `v ≠ 0` the stored value is
  adopted (lines 217-220 / 250-253); for the trigger `0` the group is reset
  to the stored value and the secondary picker is opened (lines 221-222 /
  254-255).
* `expireConfirm t`: the date picker's `save` — a zero `t` returns
  immediately (lines 224-226); otherwise the stored value is adopted,
  `regenerate()` runs and the picker box closes (lines 227-231).
* `expireCancel`: the date picker is dismissed without calling back; only
  the picker closes.
* `usageSubmit v`: the numeric picker's `save` — `v <= 0` shows an inline
  error and returns (lines 282-285); otherwise the stored value is adopted,
  `regenerate()` runs and the picker box closes (lines 286-290).
* `usageCancel`: `box->closeBox()` only (line 294).
* `setApproval b`: the toggle feeds `state->requestApproval` (line 118).
* `setLabel text`: the field holds the text truncated to
  `kMaxLabelLength` (`setMaxLength`, line 311). -/
def step : Event → UIState → UIState
  | .selectExpire v, s =>
    if v ≠ 0 then { s with expireValue := v, expireGroupValue := v }
    else { s with expireGroupValue := s.expireValue, expirePickerOpen := true }
  | .selectUsage v, s =>
    if v ≠ 0 then { s with usageValue := v, usageGroupValue := v }
    else { s with usageGroupValue := s.usageValue, usagePickerOpen := true }
  | .expireConfirm t, s =>
    if t = 0 then s
    else { applyRegenerate { s with expireValue := t } with
             expirePickerOpen := false }
  | .expireCancel, s => { s with expirePickerOpen := false }
  | .usageSubmit v, s =>
    if v ≤ 0 then s
    else { applyRegenerate { s with usageValue := v } with
             usagePickerOpen := false }
  | .usageCancel, s => { s with usagePickerOpen := false }
  | .setApproval b, s => { s with requestApproval := b }
  | .setLabel text, s => { s with label := text.take kMaxLabelLength }

/-- Folding a list of events over a state. -/
def applyEvents (evts : List Event) (s : UIState) : UIState :=
  evts.foldl (fun st e => step e st) s

/-- Whether the usage-limit section is displayed:
`usagesSlide->toggleOn(state->requestApproval.value() | rpl::map(!_1))`
(line 314). -/
def usageSectionVisible (s : UIState) : Bool :=
  !s.requestApproval

/-- The output record built by the save button (lines 320-338):
`expireDate` is `0` for `kMaxLimit`, `now - expireValue` for a negative
selection (`now` taken at commit time, line 325), and the selection itself
otherwise; `usageLimit` is `0` for `kMaxLimit` and the selection otherwise;
link, label, approval flag and group flag pass through. -/
def commitUI (s : UIState) (now : Int) : InviteLinkFields :=
  { link := s.link
    label := s.label
    expireDate :=
      if s.expireValue = kMaxLimit then 0
      else if s.expireValue < 0 then now - s.expireValue
      else s.expireValue
    usageLimit := if s.usageValue = kMaxLimit then 0 else s.usageValue
    requestApproval := s.requestApproval
    isGroup := s.isGroup }

end EditInviteLink

namespace EditInviteLink

/-- Helper: the scan stops without inserting when the head equals the
current value (`break`, line 173 / 183). -/
theorem ladderInsert_cons_break (cond : Int → Prop) [DecidablePred cond]
    (cur p : Int) (rest : List Int) (h : p = cur) :
    ladderInsert cond cur (p :: rest) = p :: rest := by
  show (if p = cur then p :: rest
    else if p = kMaxLimit then p :: ladderInsert cond cur rest
    else if p = 0 ∨ cond p then cur :: p :: rest
    else p :: ladderInsert cond cur rest) = p :: rest
  rw [if_pos h]

/-- Helper: the scan skips a `kMaxLimit` head (`continue`, line 175 / 185). -/
theorem ladderInsert_cons_max (cond : Int → Prop) [DecidablePred cond]
    (cur p : Int) (rest : List Int) (h1 : ¬ p = cur) (h2 : p = kMaxLimit) :
    ladderInsert cond cur (p :: rest) = p :: ladderInsert cond cur rest := by
  show (if p = cur then p :: rest
    else if p = kMaxLimit then p :: ladderInsert cond cur rest
    else if p = 0 ∨ cond p then cur :: p :: rest
    else p :: ladderInsert cond cur rest) = p :: ladderInsert cond cur rest
  rw [if_neg h1, if_pos h2]

/-- Helper: the scan inserts the current value before a head that is the
trigger or satisfies the comparison (lines 176-179 / 186-189). -/
theorem ladderInsert_cons_insert (cond : Int → Prop) [DecidablePred cond]
    (cur p : Int) (rest : List Int) (h1 : ¬ p = cur) (h2 : ¬ p = kMaxLimit)
    (h3 : p = 0 ∨ cond p) :
    ladderInsert cond cur (p :: rest) = cur :: p :: rest := by
  show (if p = cur then p :: rest
    else if p = kMaxLimit then p :: ladderInsert cond cur rest
    else if p = 0 ∨ cond p then cur :: p :: rest
    else p :: ladderInsert cond cur rest) = cur :: p :: rest
  rw [if_neg h1, if_neg h2, if_pos h3]

/-- Helper: the scan moves on past a head that matches no case. -/
theorem ladderInsert_cons_skip (cond : Int → Prop) [DecidablePred cond]
    (cur p : Int) (rest : List Int) (h1 : ¬ p = cur) (h2 : ¬ p = kMaxLimit)
    (h3 : ¬ (p = 0 ∨ cond p)) :
    ladderInsert cond cur (p :: rest) = p :: ladderInsert cond cur rest := by
  show (if p = cur then p :: rest
    else if p = kMaxLimit then p :: ladderInsert cond cur rest
    else if p = 0 ∨ cond p then cur :: p :: rest
    else p :: ladderInsert cond cur rest) = p :: ladderInsert cond cur rest
  rw [if_neg h1, if_neg h2, if_neg h3]

/-- Helper: when the current value is not in the preset list but the
custom trigger `0` is, the scan of `ladderInsert` always inserts the current
value exactly once, splitting the preset list around it. -/
theorem ladderInsert_not_mem (cond : Int → Prop) [DecidablePred cond]
    (cur : Int) (l : List Int) (hcur : cur ∉ l) (h0 : (0 : Int) ∈ l) :
    ∃ l1 l2, l = l1 ++ l2 ∧ ladderInsert cond cur l = l1 ++ cur :: l2 := by
  induction l with
  | nil => simp at h0
  | cons p rest ih =>
    have hpc : ¬ p = cur := fun h => hcur (h ▸ List.mem_cons_self p rest)
    have hcur' : cur ∉ rest := fun h => hcur (List.mem_cons_of_mem p h)
    by_cases hmax : p = kMaxLimit
    · have h0' : (0 : Int) ∈ rest := by
        rcases List.mem_cons.mp h0 with h | h
        · exact absurd (h.trans hmax) (by norm_num [kMaxLimit])
        · exact h
      rcases ih hcur' h0' with ⟨l1, l2, hsplit, hres⟩
      refine ⟨p :: l1, l2, by simp [hsplit], ?_⟩
      show (if p = cur then p :: rest
        else if p = kMaxLimit then p :: ladderInsert cond cur rest
        else if p = 0 ∨ cond p then cur :: p :: rest
        else p :: ladderInsert cond cur rest) = (p :: l1) ++ cur :: l2
      rw [if_neg hpc, if_pos hmax, hres]
      rfl
    · by_cases htrig : p = 0 ∨ cond p
      · refine ⟨[], p :: rest, rfl, ?_⟩
        show (if p = cur then p :: rest
          else if p = kMaxLimit then p :: ladderInsert cond cur rest
          else if p = 0 ∨ cond p then cur :: p :: rest
          else p :: ladderInsert cond cur rest) = [] ++ cur :: p :: rest
        rw [if_neg hpc, if_neg hmax, if_pos htrig]
        rfl
      · have h0' : (0 : Int) ∈ rest := by
          rcases List.mem_cons.mp h0 with h | h
          · exact absurd (Or.inl h.symm) htrig
          · exact h
        rcases ih hcur' h0' with ⟨l1, l2, hsplit, hres⟩
        refine ⟨p :: l1, l2, by simp [hsplit], ?_⟩
        show (if p = cur then p :: rest
          else if p = kMaxLimit then p :: ladderInsert cond cur rest
          else if p = 0 ∨ cond p then cur :: p :: rest
          else p :: ladderInsert cond cur rest) = (p :: l1) ++ cur :: l2
        rw [if_neg hpc, if_neg hmax, if_neg htrig, hres]
        rfl

/-- C1 counterexample: with the box-creation time `now = 1000000`, the code
places the non-preset current value `-7200` immediately after `UNLIMITED`
and before the 1-hour preset `-3600` — not between `-3600` and `-86400` as
the claim states — because the insertion test `now - p >= current` already
holds at `p = -3600`. -/
theorem c1_counterexample :
    regenerateExpires 1000000 (-7200) =
      [kMaxLimit, -7200, -kHour, -kDay, -(kDay * 7), 0]
    ∧ regenerateExpires 1000000 (-7200) ≠
      [kMaxLimit, -kHour, -7200, -kDay, -(kDay * 7), 0] := by
  constructor <;> decide

/-- C1 (amended): for every non-negative `now`, synthesizing the expiration
ladder with current value `-7200` yields
`[UNLIMITED, -7200, -3600, -86400, -604800, 0]`: the custom value is placed
immediately before the 1-hour preset, because the insertion condition
`now - p >= current` compares the raw (negative) current value and therefore
already holds at the first negative preset. -/
theorem c1_amended (now : Int) (h : 0 ≤ now) :
    regenerateExpires now (-7200) =
      [kMaxLimit, -7200, -kHour, -kDay, -(kDay * 7), 0] := by
  unfold regenerateExpires expiresPresets
  rw [ladderInsert_cons_max _ _ _ _ (by norm_num [kMaxLimit]) rfl,
    ladderInsert_cons_insert _ _ _ _ (by norm_num [kHour])
      (by norm_num [kHour, kMaxLimit])
      (Or.inr (by unfold kHour; omega))]

/-- C1 amended witness at `now = 1000000`. -/
theorem c1_witness :
    regenerateExpires 1000000 (-7200) =
      [kMaxLimit, -7200, -kHour, -kDay, -(kDay * 7), 0] :=
  c1_amended 1000000 (by norm_num)

/-- C3: on the usage ladder `[UNLIMITED, 1, 10, 100, 0]`, synthesizing with
current `50` inserts it before the first strictly greater preset, giving
`[UNLIMITED, 1, 10, 50, 100, 0]`, and synthesizing with current `200`
inserts it immediately before the trailing `0` trigger, giving
`[UNLIMITED, 1, 10, 100, 200, 0]`. -/
theorem c3_usage_ordering :
    regenerateUsages 50 = [kMaxLimit, 1, 10, 50, 100, 0]
    ∧ regenerateUsages 200 = [kMaxLimit, 1, 10, 100, 200, 0] := by
  constructor <;> decide

end EditInviteLink

namespace EditInviteLink

/-- Helper: synthesizing the expiration ladder with current `UNLIMITED`
returns the presets unchanged (the scan breaks at the first element). -/
theorem regenerateExpires_max (now : Int) :
    regenerateExpires now kMaxLimit = expiresPresets := by
  unfold regenerateExpires expiresPresets
  rw [ladderInsert_cons_break _ _ _ _ rfl]

/-- Helper: synthesizing the expiration ladder with current `-kHour`
returns the presets unchanged (the scan skips `UNLIMITED` and breaks at the
1-hour preset before any comparison is evaluated). -/
theorem regenerateExpires_hour (now : Int) :
    regenerateExpires now (-kHour) = expiresPresets := by
  unfold regenerateExpires expiresPresets
  rw [ladderInsert_cons_max _ _ _ _ (by norm_num [kMaxLimit, kHour]) rfl,
    ladderInsert_cons_break _ _ _ _ rfl]

/-- Helper: exact-once counts and length for the inserted scan result when
the current value is not among the presets. -/
theorem ladderInsert_counts_of_not_mem (cond : Int → Prop)
    [DecidablePred cond] (cur : Int) (l : List Int) (hcur : cur ∉ l)
    (h0 : (0 : Int) ∈ l) :
    (ladderInsert cond cur l).count cur = 1
    ∧ (∀ p ∈ l, (ladderInsert cond cur l).count p = l.count p)
    ∧ (ladderInsert cond cur l).length = l.length + 1 := by
  rcases ladderInsert_not_mem cond cur l hcur h0 with ⟨l1, l2, hsplit, hres⟩
  subst hsplit
  rw [hres]
  have hc1 : cur ∉ l1 := fun h => hcur (List.mem_append.mpr (Or.inl h))
  have hc2 : cur ∉ l2 := fun h => hcur (List.mem_append.mpr (Or.inr h))
  refine ⟨?_, fun p hp => ?_, ?_⟩
  · simp [List.count_append, List.count_cons, List.count_eq_zero.mpr hc1,
      List.count_eq_zero.mpr hc2]
  · have hpc : ¬ cur = p := fun h => hcur (h ▸ hp)
    have hpc' : ¬ p = cur := fun h => hpc h.symm
    simp [List.count_append, List.count_cons, hpc, hpc']
  · simp [List.length_append]
    omega

/-- C2 counterexample: with `now = 1000000`, synthesizing the expiration
ladder with current value `-86400` — which is itself a preset — duplicates
it: the insertion test `now - p >= current` already fires at the earlier
preset `-3600`, before the scan reaches the matching preset, so the result
is `[UNLIMITED, -86400, -3600, -86400, -604800, 0]` with `-86400` occurring
twice and length `6` rather than `5`. -/
theorem c2_counterexample :
    regenerateExpires 1000000 (-86400) =
      [kMaxLimit, -86400, -kHour, -kDay, -(kDay * 7), 0]
    ∧ (regenerateExpires 1000000 (-86400)).count (-86400) = 2 := by
  constructor <;> decide

/-- C2 (amended): the exact-once containment holds for every current value
except the custom-trigger `0` itself and, on the expiration ladder, the two
negative presets `-86400` and `-604800` (for which the elapsed-time
comparison fires at `-3600` before the equality break, duplicating the
value).  Outside those values the synthesized sequence contains `current`
exactly once, contains every preset exactly once, and has length
`len(presets)` when `current` is a preset and `len(presets) + 1`
otherwise. -/
theorem c2_amended (now cur ucur : Int) (h1 : cur ≠ 0) (h2 : cur ≠ -kDay)
    (h3 : cur ≠ -(kDay * 7)) (h4 : ucur ≠ 0) :
    ((regenerateExpires now cur).count cur = 1
      ∧ (∀ p ∈ expiresPresets, (regenerateExpires now cur).count p = 1)
      ∧ (cur ∈ expiresPresets →
          (regenerateExpires now cur).length = expiresPresets.length)
      ∧ (cur ∉ expiresPresets →
          (regenerateExpires now cur).length = expiresPresets.length + 1))
    ∧ ((regenerateUsages ucur).count ucur = 1
      ∧ (∀ p ∈ usagesPresets, (regenerateUsages ucur).count p = 1)
      ∧ (ucur ∈ usagesPresets →
          (regenerateUsages ucur).length = usagesPresets.length)
      ∧ (ucur ∉ usagesPresets →
          (regenerateUsages ucur).length = usagesPresets.length + 1)) := by
  constructor
  · by_cases hm : cur ∈ expiresPresets
    · have hcases : cur = kMaxLimit ∨ cur = -kHour := by
        simp only [expiresPresets, List.mem_cons, List.not_mem_nil,
          or_false] at hm
        rcases hm with h | h | h | h | h
        · exact Or.inl h
        · exact Or.inr h
        · exact absurd h h2
        · exact absurd h h3
        · exact absurd h h1
      rcases hcases with hcur | hcur <;> subst hcur
      · rw [regenerateExpires_max]
        exact ⟨by decide, by decide, fun _ => rfl, fun hn => absurd hm hn⟩
      · rw [regenerateExpires_hour]
        exact ⟨by decide, by decide, fun _ => rfl, fun hn => absurd hm hn⟩
    · have h0mem : (0 : Int) ∈ expiresPresets := by decide
      have hall : ∀ p ∈ expiresPresets, expiresPresets.count p = 1 := by
        decide
      rcases ladderInsert_counts_of_not_mem (fun p => now - p ≥ cur) cur
          expiresPresets hm h0mem with ⟨hc, hp, hl⟩
      exact ⟨hc, fun p hpm => (hp p hpm).trans (hall p hpm),
        fun hmem => absurd hmem hm, fun _ => hl⟩
  · by_cases hm : ucur ∈ usagesPresets
    · have hcases :
          ucur = kMaxLimit ∨ ucur = 1 ∨ ucur = 10 ∨ ucur = 100 := by
        simp only [usagesPresets, List.mem_cons, List.not_mem_nil,
          or_false] at hm
        rcases hm with h | h | h | h | h
        · exact Or.inl h
        · exact Or.inr (Or.inl h)
        · exact Or.inr (Or.inr (Or.inl h))
        · exact Or.inr (Or.inr (Or.inr h))
        · exact absurd h h4
      have hmax : regenerateUsages kMaxLimit = usagesPresets := by decide
      have hone : regenerateUsages 1 = usagesPresets := by decide
      have hten : regenerateUsages 10 = usagesPresets := by decide
      have hcent : regenerateUsages 100 = usagesPresets := by decide
      rcases hcases with hcur | hcur | hcur | hcur <;> subst hcur
      · rw [hmax]
        exact ⟨by decide, by decide, fun _ => rfl, fun hn => absurd hm hn⟩
      · rw [hone]
        exact ⟨by decide, by decide, fun _ => rfl, fun hn => absurd hm hn⟩
      · rw [hten]
        exact ⟨by decide, by decide, fun _ => rfl, fun hn => absurd hm hn⟩
      · rw [hcent]
        exact ⟨by decide, by decide, fun _ => rfl, fun hn => absurd hm hn⟩
    · have h0mem : (0 : Int) ∈ usagesPresets := by decide
      have hall : ∀ p ∈ usagesPresets, usagesPresets.count p = 1 := by
        decide
      rcases ladderInsert_counts_of_not_mem (fun p => p > ucur) ucur
          usagesPresets hm h0mem with ⟨hc, hp, hl⟩
      exact ⟨hc, fun p hpm => (hp p hpm).trans (hall p hpm),
        fun hmem => absurd hmem hm, fun _ => hl⟩

/-- C2 amended witness at `now = 1000000`, `cur = -7200`, `ucur = 50`. -/
theorem c2_witness :
    ((-7200 : Int) ≠ 0 ∧ (-7200 : Int) ≠ -kDay
      ∧ (-7200 : Int) ≠ -(kDay * 7) ∧ (50 : Int) ≠ 0)
    ∧ (regenerateExpires 1000000 (-7200)).count (-7200) = 1
    ∧ (regenerateUsages 50).count 50 = 1 := by
  refine ⟨⟨by decide, by decide, by decide, by decide⟩, ?_, ?_⟩
  · exact (c2_amended 1000000 (-7200) 50 (by decide) (by decide) (by decide)
      (by decide)).1.1
  · exact (c2_amended 1000000 (-7200) 50 (by decide) (by decide) (by decide)
      (by decide)).2.1

end EditInviteLink

namespace EditInviteLink

/-- C4: the commit encoding of the save button — `UNLIMITED` expiration
commits to `0`; a negative (relative) expiration selection commits to
`now - v` with `now` taken at commit time; a non-`UNLIMITED` non-negative
selection passes through unchanged; `UNLIMITED` usage commits to `0` and
any other usage selection passes through unchanged. -/
theorem c4_commit_encoding (s : UIState) (now : Int) :
    ((s.expireValue = kMaxLimit → (commitUI s now).expireDate = 0)
      ∧ (s.expireValue < 0 →
          (commitUI s now).expireDate = now - s.expireValue)
      ∧ (s.expireValue ≠ kMaxLimit → 0 ≤ s.expireValue →
          (commitUI s now).expireDate = s.expireValue))
    ∧ ((s.usageValue = kMaxLimit → (commitUI s now).usageLimit = 0)
      ∧ (s.usageValue ≠ kMaxLimit →
          (commitUI s now).usageLimit = s.usageValue)) := by
  unfold commitUI
  refine ⟨⟨fun h => by simp [h], fun h => ?_, fun h1 h2 => ?_⟩,
    fun h => by simp [h], fun h => by simp [h]⟩
  · have hne : s.expireValue ≠ kMaxLimit := by
      intro he
      rw [he] at h
      exact absurd h (by norm_num [kMaxLimit])
    simp [hne, h]
  · simp [h1, not_lt.mpr h2]

/-- C4 witness: selecting `-3600` and committing at `now = 1000` yields
`expireDate = 4600`; a plain usage selection `5` passes through. -/
theorem c4_witness :
    (commitUI ⟨"", false, -3600, 5, false, "", -3600, 5, false, false, 1⟩
        1000).expireDate = 4600
    ∧ (commitUI ⟨"", false, -3600, 5, false, "", -3600, 5, false, false, 1⟩
        1000).usageLimit = 5 := by
  constructor
  · have h := (c4_commit_encoding
      ⟨"", false, -3600, 5, false, "", -3600, 5, false, false, 1⟩
      1000).1.2.1 (by decide)
    exact h.trans (by norm_num)
  · exact (c4_commit_encoding
      ⟨"", false, -3600, 5, false, "", -3600, 5, false, false, 1⟩
      1000).2.2 (by decide)

/-- C5 counterexample: with `now = 1000` and current selection `5` — a
non-negative absolute time that is not in the future — the code seeds the
date picker with `now + kDay = 87400`, not with the selection `5` as the
claim states for every non-negative selection. -/
theorem c5_counterexample :
    expirePickerSeedTime 1000 5 = 87400 ∧ (87400 : Int) ≠ 5 := by
  constructor <;> decide

/-- C5 (amended): the picker seed is `now + kDay` for `UNLIMITED`; the
selection itself only when it is strictly greater than `now`; `now - v`
(i.e. `now + |v|`) for a negative selection not exceeding `now`; and
`now + kDay` again for a non-negative, non-`UNLIMITED` selection that is
not in the future. -/
theorem c5_amended (now v : Int) :
    (v = kMaxLimit → expirePickerSeedTime now v = now + kDay)
    ∧ (v ≠ kMaxLimit → v > now → expirePickerSeedTime now v = v)
    ∧ (v < 0 → v ≤ now → expirePickerSeedTime now v = now - v)
    ∧ (0 ≤ v → v ≠ kMaxLimit → v ≤ now →
        expirePickerSeedTime now v = now + kDay) := by
  unfold expirePickerSeedTime
  refine ⟨fun h => by simp [h], fun h1 h2 => by simp [h1, h2],
    fun h1 h2 => ?_, fun h1 h2 h3 => ?_⟩
  · have hne : v ≠ kMaxLimit := by
      intro he
      rw [he] at h1
      exact absurd h1 (by norm_num [kMaxLimit])
    simp [hne, not_lt.mpr h2, h1]
  · simp [h2, not_lt.mpr h3, not_lt.mpr h1]

/-- C5 amended witness: a relative 2-hour selection `-7200` at `now = 1000`
seeds the picker with `8200`. -/
theorem c5_witness : expirePickerSeedTime 1000 (-7200) = 8200 := by
  have h := (c5_amended 1000 (-7200)).2.2.1 (by decide) (by decide)
  exact h.trans (by norm_num)

/-- C6: submitting a non-positive parsed value in the custom usage picker
(including `0`, which is also what unparsable text parses to) leaves the
whole dialog state unchanged — the picker stays open and the stored usage
selection is not mutated; a strictly positive value is adopted, closes the
picker, and triggers one resynthesis. -/
theorem c6_usage_validation (s : UIState) (v : Int) :
    (v ≤ 0 → step (Event.usageSubmit v) s = s)
    ∧ (0 < v → (step (Event.usageSubmit v) s).usageValue = v
        ∧ (step (Event.usageSubmit v) s).usagePickerOpen = false
        ∧ (step (Event.usageSubmit v) s).regenCount = s.regenCount + 1) := by
  constructor
  · intro h
    simp [step, h]
  · intro h
    simp [step, not_le.mpr h, applyRegenerate]

/-- C6 witness: submitting `0` or `-5` with the picker open changes
nothing. -/
theorem c6_witness :
    step (Event.usageSubmit 0)
        ⟨"", false, -3600, 5, false, "", -3600, 5, false, true, 1⟩
      = ⟨"", false, -3600, 5, false, "", -3600, 5, false, true, 1⟩
    ∧ step (Event.usageSubmit (-5))
        ⟨"", false, -3600, 5, false, "", -3600, 5, false, true, 1⟩
      = ⟨"", false, -3600, 5, false, "", -3600, 5, false, true, 1⟩ :=
  ⟨(c6_usage_validation
      ⟨"", false, -3600, 5, false, "", -3600, 5, false, true, 1⟩ 0).1
      (by decide),
    (c6_usage_validation
      ⟨"", false, -3600, 5, false, "", -3600, 5, false, true, 1⟩ (-5)).1
      (by decide)⟩

/-- C7 counterexample: the date picker's `save` with a null (zero) time
returns before `closeBox()`, so the picker box stays open — unlike a
cancellation, which dismisses it; the "interaction ends as a cancellation
would" part of the claim fails. -/
theorem c7_counterexample :
    (step (Event.expireConfirm 0)
        ⟨"", false, kMaxLimit, kMaxLimit, false, "", kMaxLimit, kMaxLimit,
          true, false, 1⟩).expirePickerOpen = true
    ∧ (step Event.expireCancel
        ⟨"", false, kMaxLimit, kMaxLimit, false, "", kMaxLimit, kMaxLimit,
          true, false, 1⟩).expirePickerOpen = false := by
  constructor <;> decide

/-- C7 (amended): confirming the date picker with a null (zero) time is a
complete no-op in the dialog: the stored expiration selection is not
mutated, no resynthesis occurs, and — unlike cancel — the picker box is not
closed by the save callback, so the picker stays open rather than the
interaction ending. -/
theorem c7_amended (s : UIState) : step (Event.expireConfirm 0) s = s := by
  simp [step]

/-- C8: toggling `requestApproval` changes only the approval flag — it
hides the usage-limit section while the stored usage selection stays
untouched, and toggling the flag back off re-shows the section with the
previous usage selection unchanged. -/
theorem c8_approval_toggle (s : UIState) :
    step (Event.setApproval true) s = { s with requestApproval := true }
    ∧ (step (Event.setApproval true) s).usageValue = s.usageValue
    ∧ usageSectionVisible (step (Event.setApproval true) s) = false
    ∧ (step (Event.setApproval false)
        (step (Event.setApproval true) s)).usageValue = s.usageValue
    ∧ (step (Event.setApproval false)
        (step (Event.setApproval true) s)).usageGroupValue
        = s.usageGroupValue
    ∧ usageSectionVisible
        (step (Event.setApproval false)
          (step (Event.setApproval true) s)) = true :=
  ⟨rfl, rfl, rfl, rfl, rfl, rfl⟩

/-- Helper: every dialog transition preserves "neither stored selection is
the custom-trigger sentinel `0`". -/
theorem step_preserves_nonzero (e : Event) (s : UIState)
    (h : s.expireValue ≠ 0 ∧ s.usageValue ≠ 0) :
    (step e s).expireValue ≠ 0 ∧ (step e s).usageValue ≠ 0 := by
  cases e with
  | selectExpire v =>
    simp only [step]
    split_ifs with hv
    · exact ⟨hv, h.2⟩
    · exact ⟨h.1, h.2⟩
  | selectUsage v =>
    simp only [step]
    split_ifs with hv
    · exact ⟨h.1, hv⟩
    · exact ⟨h.1, h.2⟩
  | expireConfirm t =>
    simp only [step]
    split_ifs with ht
    · exact h
    · exact ⟨ht, h.2⟩
  | expireCancel => exact h
  | usageSubmit v =>
    simp only [step]
    split_ifs with hv
    · exact h
    · exact ⟨h.1, fun he => hv (le_of_eq he)⟩
  | usageCancel => exact h
  | setApproval b => exact h
  | setLabel text =>
    simp only [step]
    exact h

/-- Helper: the invariant propagated along any event sequence. -/
theorem applyEvents_nonzero (evts : List Event) (s : UIState)
    (h : s.expireValue ≠ 0 ∧ s.usageValue ≠ 0) :
    (applyEvents evts s).expireValue ≠ 0
    ∧ (applyEvents evts s).usageValue ≠ 0 := by
  induction evts generalizing s with
  | nil => exact h
  | cons e rest ih => exact ih (step e s) (step_preserves_nonzero e s h)

/-- Helper: the invariant holds in the seeded state: a zero input field is
replaced by `kMaxLimit` and a nonzero one is itself nonzero. -/
theorem initUI_nonzero (data : InviteLinkFields) :
    (initUI data).expireValue ≠ 0 ∧ (initUI data).usageValue ≠ 0 := by
  constructor
  · show (if data.expireDate = 0 then kMaxLimit else data.expireDate) ≠ 0
    split_ifs with h
    · norm_num [kMaxLimit]
    · exact h
  · show (if data.usageLimit = 0 then kMaxLimit else data.usageLimit) ≠ 0
    split_ifs with h
    · norm_num [kMaxLimit]
    · exact h

/-- C9: selecting the custom-trigger value `0` in either radio group
immediately restores the group to the prior stored selection while opening
the secondary picker, and never mutates the stored selection; cancelling a
picker leaves both the stored selection and the displayed group value (and
the regeneration counter, hence the rendered option list) exactly as they
were; consequently, in every state reachable from any seeded dialog by any
event sequence, neither stored selection is the trigger sentinel `0`. -/
theorem c9_trigger_invariant (data : InviteLinkFields) (evts : List Event)
    (s : UIState) :
    ((step (Event.selectExpire 0) s).expireValue = s.expireValue
      ∧ (step (Event.selectExpire 0) s).expireGroupValue = s.expireValue
      ∧ (step (Event.selectExpire 0) s).expirePickerOpen = true)
    ∧ ((step Event.expireCancel s).expireValue = s.expireValue
      ∧ (step Event.expireCancel s).expireGroupValue = s.expireGroupValue
      ∧ (step Event.expireCancel s).regenCount = s.regenCount)
    ∧ ((step (Event.selectUsage 0) s).usageValue = s.usageValue
      ∧ (step (Event.selectUsage 0) s).usageGroupValue = s.usageValue
      ∧ (step (Event.selectUsage 0) s).usagePickerOpen = true)
    ∧ ((step Event.usageCancel s).usageValue = s.usageValue
      ∧ (step Event.usageCancel s).usageGroupValue = s.usageGroupValue
      ∧ (step Event.usageCancel s).regenCount = s.regenCount)
    ∧ ((applyEvents evts (initUI data)).expireValue ≠ 0
      ∧ (applyEvents evts (initUI data)).usageValue ≠ 0) := by
  refine ⟨⟨?_, ?_, ?_⟩, ⟨rfl, rfl, rfl⟩, ⟨?_, ?_, ?_⟩, ⟨rfl, rfl, rfl⟩,
    applyEvents_nonzero evts (initUI data) (initUI_nonzero data)⟩
  all_goals simp [step]

/-- C10: a record with `expireDate = 0` and `usageLimit = 0` is seeded as
`kMaxLimit` (the `UNLIMITED` sentinel) in both dimensions, and committing
immediately round-trips to an output record with `expireDate = 0`,
`usageLimit = 0`, and the same link, label, approval flag and group
flag. -/
theorem c10_roundtrip (data : InviteLinkFields) (now : Int)
    (h1 : data.expireDate = 0) (h2 : data.usageLimit = 0) :
    commitUI (initUI data) now =
      { link := data.link, label := data.label, expireDate := 0,
        usageLimit := 0, requestApproval := data.requestApproval,
        isGroup := data.isGroup } := by
  unfold commitUI initUI
  simp [h1, h2]

/-- C10 witness at a concrete record. -/
theorem c10_witness :
    commitUI (initUI ⟨"t.me/joinchat/x", "team", 0, 0, true, false⟩) 999 =
      ⟨"t.me/joinchat/x", "team", 0, 0, true, false⟩ :=
  c10_roundtrip ⟨"t.me/joinchat/x", "team", 0, 0, true, false⟩ 999 rfl rfl

end EditInviteLink

namespace EditInviteLink

/-- C9 witness: after seeding from a blank record and a concrete event
trace that selects the 1-hour preset, hits the usage custom trigger and
cancels, neither stored selection is the trigger sentinel `0`. -/
theorem c9_witness :
    (applyEvents [Event.selectExpire (-3600), Event.selectUsage 0,
        Event.usageCancel]
      (initUI ⟨"", "", 0, 0, false, true⟩)).expireValue ≠ 0
    ∧ (applyEvents [Event.selectExpire (-3600), Event.selectUsage 0,
        Event.usageCancel]
      (initUI ⟨"", "", 0, 0, false, true⟩)).usageValue ≠ 0 :=
  (c9_trigger_invariant ⟨"", "", 0, 0, false, true⟩
    [Event.selectExpire (-3600), Event.selectUsage 0, Event.usageCancel]
    (initUI ⟨"", "", 0, 0, false, true⟩)).2.2.2.2

end EditInviteLink
